import Mathlib

/-!
Shallow embedding of the mercury RPC substrate: the call-dispatch layer
(`src/function_shipper_handler.c`) and the wireup server loop with its
adaptive receive pool (`replies.c`).  Pointers are modelled as `Option Nat`
(`none` = NULL), opaque resources (buffers, decode procs, addresses,
routines) as `Nat` tokens, machine sizes as `Nat` with explicit `% 2^64`
where C `size_t` arithmetic can wrap.
-/

namespace Mercury

/-- Modelled from the spec: return codes from the absent `shipper_error.h`;
the function doc comments say "Non-negative on success or negative on
failure". -/
def S_SUCCESS : Int := 1

/-- Modelled from the spec: failure return code, negative. -/
def S_FAIL : Int := -1

/-- `fs_proc_info_t` from `function_shipper_handler.c`: the registry triple
of routine pointers {executor, decoder, encoder}, each an opaque token. -/
structure fs_proc_info_t where
  fs_routine : Nat
  dec_routine : Nat
  enc_routine : Nat
deriving DecidableEq

/-- `fs_priv_handle_t` from `function_shipper_handler.c`: per-inbound-call
state.  `Option` fields model nullable owned pointers. -/
structure fs_priv_handle_t where
  id : Nat
  addr : Option Nat
  tag : Nat
  dec_proc : Option Nat
  recv_buf : Option Nat
  in_struct : Option Nat
deriving DecidableEq

/-- The function map contents: association list from 32-bit operation id to
registry triple (newest binding first). -/
abbrev FuncMap := List (Nat × fs_proc_info_t)

/-- Modelled from the spec: `func_map_new` from the absent
`function_map.c`; creates an empty map. -/
def func_map_new : FuncMap := []

/-- Modelled from the spec: `func_map_insert` from the absent
`function_map.c`.  Spec section 3 records that the source silently
overwrites on a colliding id; prepending with first-match lookup realises
exactly that. -/
def func_map_insert (m : FuncMap) (id : Nat) (info : fs_proc_info_t) : FuncMap :=
  (id, info) :: m

/-- Modelled from the spec: `func_map_lookup` from the absent
`function_map.c`; returns the triple stored under `id` or "not found". -/
def func_map_lookup (m : FuncMap) (id : Nat) : Option fs_proc_info_t :=
  List.lookup id m

/-- Modelled from the spec: the string-to-32-bit-id hash collaborator
(`fs_proc_string_hash`), excluded from the core by spec section 1; a
concrete 32-bit string hash standing in for it. -/
def fs_proc_string_hash (s : String) : Nat :=
  s.toList.foldl (fun h c => (h * 33 + c.toNat) % 2 ^ 32) 5381

/-- The handler module's two process-wide statics: `handler_network_class`
and `handler_func_map` (NULL modelled as `none`). -/
structure HandlerState where
  handler_network_class : Option Nat
  handler_func_map : Option FuncMap
deriving DecidableEq

/-- `fs_handler_init`: fails (state untouched) when `handler_network_class`
is already set; otherwise stores the network class and creates a fresh
function map. -/
def fs_handler_init (network_class : Nat) (s : HandlerState) : Int × HandlerState :=
  match s.handler_network_class with
  | some _ => (S_FAIL, s)
  | none =>
      (S_SUCCESS,
        { handler_network_class := some network_class
          handler_func_map := some func_map_new })

/-- `fs_handler_finalize`: fails (state untouched) when
`handler_network_class` is NULL; otherwise finalizes the network class
(collaborator), frees the function map and clears both statics. -/
def fs_handler_finalize (s : HandlerState) : Int × HandlerState :=
  match s.handler_network_class with
  | none => (S_FAIL, s)
  | some _ =>
      (S_SUCCESS, { handler_network_class := none, handler_func_map := none })

/-- `fs_handler_register`: hashes the name to an id, builds the triple and
inserts it into the module's function map.  The C function returns `void`:
it has no failure result.  When the map static is NULL (module not
initialized) the C call would be undefined; the model leaves the state
unchanged, and theorems assume an initialized module. -/
def fs_handler_register (func_name : String)
    (fs_routine dec_routine enc_routine : Nat) (s : HandlerState) : HandlerState :=
  match s.handler_func_map with
  | none => s
  | some m =>
      let id := fs_proc_string_hash func_name
      { s with
        handler_func_map :=
          some (func_map_insert m id ⟨fs_routine, dec_routine, enc_routine⟩) }

/-- Result of `fs_handler_get_input`: the return code, the handle's state
after the call, and whether the registered decoder was invoked (and hence
the decode proc and receive buffer freed) during this call. -/
structure GetInputResult where
  ret : Int
  handle : fs_priv_handle_t
  decoded : Bool
deriving DecidableEq

/-- `fs_handler_get_input`: when the handle still owns both its receive
buffer and decode proc, looks up the decoder by the handle's id (failing
without touching the handle when the lookup misses), decodes into the
caller's struct, then frees the decode proc and receive buffer and clears
both references; otherwise a no-op returning success. -/
def fs_handler_get_input (fm : FuncMap) (h : fs_priv_handle_t) : GetInputResult :=
  if h.recv_buf.isSome && h.dec_proc.isSome then
    match func_map_lookup fm h.id with
    | none => ⟨S_FAIL, h, false⟩
    | some _ => ⟨S_SUCCESS, { h with dec_proc := none, recv_buf := none }, true⟩
  else ⟨S_SUCCESS, h, false⟩

/-- Result of `fs_handler_receive`: the return code, the handle allocation
still live when the function returns (with its field values; `none` would
mean the handle was freed), and whether the registered executor was
invoked. -/
structure ReceiveResult where
  ret : Int
  handle_live : Option fs_priv_handle_t
  executed : Bool
deriving DecidableEq

/-- `fs_handler_receive`: allocates a handle, allocates a receive buffer of
the unexpected-message size, blocks on `na_recv_unexpected` which fills the
buffer and the handle's `addr`/`tag` (the delivered message's decoded
operation id, source address and tag are the `msg_id`/`msg_addr`/`msg_tag`
parameters; the fresh allocations are the `recv_buf_ptr`/`dec_proc_ptr`
tokens), strips the IOFSL compat id, creates a decode proc over the rest,
decodes the 4-byte operation id into the handle, and looks it up in the
function map.  On "not found" it returns `S_FAIL` with no free of the
receive buffer, decode proc or handle — all remain live.  On "found" it
invokes the executor synchronously on the handle. -/
def fs_handler_receive (fm : FuncMap)
    (msg_id msg_addr msg_tag recv_buf_ptr dec_proc_ptr : Nat) : ReceiveResult :=
  let priv : fs_priv_handle_t :=
    { id := msg_id, addr := some msg_addr, tag := msg_tag,
      dec_proc := some dec_proc_ptr, recv_buf := some recv_buf_ptr,
      in_struct := none }
  match func_map_lookup fm msg_id with
  | none => { ret := S_FAIL, handle_live := some priv, executed := false }
  | some _ => { ret := S_SUCCESS, handle_live := some priv, executed := true }

/-- Result of `fs_handler_complete`: return code, the length of the send
buffer allocation (if one was made), the capacity handed to the encoding
proc (send buffer length minus the IOFSL status size), the number of bytes
given to `na_send` (if a send was issued), and whether the peer address and
the handle itself were freed. -/
structure CompleteResult where
  ret : Int
  alloc_len : Option Nat
  enc_capacity : Option Nat
  sent_len : Option Nat
  addr_freed : Bool
  handle_freed : Bool
deriving DecidableEq

/-- `fs_handler_complete`: looks the triple up again by the handle's id
(failing when not found), fixes the send buffer length at the transport's
unexpected-message size (`unexpected_size`; the size-negotiation block that
queried the encoder's required size is commented out in the source, so no
required size is ever consulted), allocates it (`malloc_ok` models the
allocation outcome), writes the IOFSL status of `status_size` bytes,
creates an encoding proc over the remaining capacity, runs the encoder,
sends the whole buffer to the handle's addr/tag, waits, then frees the
encoding proc, send buffer, peer address, `in_struct` and the handle.  No
field of the handle records completion: the function branches only on the
lookup and the allocation. -/
def fs_handler_complete (unexpected_size status_size : Nat) (malloc_ok : Bool)
    (fm : FuncMap) (h : fs_priv_handle_t) : CompleteResult :=
  match func_map_lookup fm h.id with
  | none =>
      { ret := S_FAIL, alloc_len := none, enc_capacity := none,
        sent_len := none, addr_freed := false, handle_freed := false }
  | some _ =>
      let send_buf_len := unexpected_size
      if malloc_ok then
        { ret := S_SUCCESS, alloc_len := some send_buf_len,
          enc_capacity := some (send_buf_len - status_size),
          sent_len := some send_buf_len, addr_freed := true,
          handle_freed := true }
      else
        { ret := S_FAIL, alloc_len := none, enc_capacity := none,
          sent_len := none, addr_freed := false, handle_freed := false }

/-- The platform's maximum `size_t` value (64-bit). -/
def SIZE_MAX : Nat := 2 ^ 64 - 1

/-- Modelled from the spec: `twice_or_max` from the absent `util.h`; spec
section 4.1: the new capacity is computed "by doubling the previous buffer
size, saturating at the platform's maximum size rather than
overflowing". -/
def twice_or_max (n : Nat) : Nat := min (2 * n) SIZE_MAX

/-- Modelled from the spec: the fixed wireup header size
`offsetof(wireup_msg_t, addr[0])` from the absent `wireup.h`; spec section
6 gives the layout {op: 1 byte, senderId: 8 bytes, addressLength: size_t},
17 bytes on a 64-bit platform. -/
def wireup_hdrlen : Nat := 17

/-- Modelled from the spec: the wireup `OP_REQ` operation byte (absent
`wireup.h`); only distinctness from `OP_ACK` matters. -/
def OP_REQ : Nat := 0

/-- Modelled from the spec: the wireup `OP_ACK` operation byte (absent
`wireup.h`). -/
def OP_ACK : Nat := 1

/-- Completion statuses distinguished by `run_server_once`: `UCS_OK`,
`UCS_ERR_MESSAGE_TRUNCATED`, and any other (fatal) status code. -/
inductive ucs_status_t where
  | UCS_OK
  | UCS_ERR_MESSAGE_TRUNCATED
  | err (code : Nat)
deriving DecidableEq

/-- `rxdesc_t` as used by `run_server_once`: completion status, delivered
length, the sender's tag, and the slot's buffer (token) and capacity. -/
structure rxdesc_t where
  status : ucs_status_t
  rxlen : Nat
  sender_tag : Nat
  buf : Nat
  buflen : Nat
deriving DecidableEq

/-- Effects of `process_rx_msg`: which warning (if any) was logged, and
whether an `OP_ACK` reply was sent back on the sender's tag. -/
structure RxMsgResult where
  warned_short : Bool
  warned_bad_op : Bool
  warned_addr_truncated : Bool
  sent_ack : Bool
deriving DecidableEq

/-- `process_rx_msg` from `replies.c`, acting on a delivered wireup body of
`buflen` bytes whose header fields decode to `op` and `addrlen` (the header
is only read once `buflen` covers it).  Shorter than the header: warn and
return, no reply.  Wrong op byte: warn and return, no reply.  Address
length exceeding the delivered bytes: the source warns "dropping ...
address truncated" but does NOT return — it falls through, creates a reply
endpoint from the (truncated) address bytes and sends the `OP_ACK` reply
exactly as in the well-formed case. -/
def process_rx_msg (buflen op addrlen : Nat) : RxMsgResult :=
  if buflen < wireup_hdrlen then
    ⟨true, false, false, false⟩
  else if op ≠ OP_REQ then
    ⟨false, true, false, false⟩
  else if buflen < wireup_hdrlen + addrlen then
    ⟨false, false, true, true⟩
  else
    ⟨false, false, false, true⟩

/-- Effects of one `run_server_once` call: whether the loop continues
(`run_server_once`'s boolean result), the message handed to
`process_rx_msg` as (sender tag, buffer, delivered length), a fatal status
reported via the "receive error" print, the buffer freed during a regrow,
the buffer newly allocated during a regrow as (token, length), and the
(buffer, length) the slot was re-armed with via `rxdesc_setup` (which
re-posts the receive on the pool's fixed match tag). -/
structure ServerStep where
  continues : Bool
  processed : Option (Nat × Nat × Nat)
  error_reported : Option ucs_status_t
  freed_buf : Option Nat
  new_buf : Option (Nat × Nat)
  rearmed : Option (Nat × Nat)
deriving DecidableEq

/-- `run_server_once` from `replies.c`.  `poll` is what `rxpool_next`
returned (`none`: no completed slot, return true at once); `fresh` is the
token `malloc` would return for a regrown buffer.  `UCS_OK`: process the
message, re-arm the slot with its unchanged buffer, continue.
`UCS_ERR_MESSAGE_TRUNCATED`: compute the new length as
`twice_or_max(buflen) - hdrlen` in wrapping `size_t` arithmetic (the
source's comment: twice the message length is twice the header plus twice
the payload, so subtract one header length), allocate the new buffer, free
the old, re-arm with the new buffer, continue.  Any other status: print the
receive error and return false without re-arming, ending the caller's
serving loop. -/
def run_server_once (poll : Option rxdesc_t) (fresh : Nat) : ServerStep :=
  match poll with
  | none => ⟨true, none, none, none, none, none⟩
  | some rdesc =>
    match rdesc.status with
    | .UCS_OK =>
        ⟨true, some (rdesc.sender_tag, rdesc.buf, rdesc.rxlen), none, none,
          none, some (rdesc.buf, rdesc.buflen)⟩
    | .UCS_ERR_MESSAGE_TRUNCATED =>
        let nbuflen := (twice_or_max rdesc.buflen + (2 ^ 64 - wireup_hdrlen)) % 2 ^ 64
        ⟨true, none, none, some rdesc.buf, some (fresh, nbuflen),
          some (fresh, nbuflen)⟩
    | .err c => ⟨false, none, some (.err c), none, none, none⟩

/-- The `while (run_server_once(&rxpool)) ucp_worker_progress(worker);`
loop of `run_server`, driven by the sequence of `rxpool_next` results (each
paired with the fresh-buffer token for a potential regrow): it performs
steps until `run_server_once` returns false, and returns the list of steps
executed. -/
def run_server (polls : List (Option rxdesc_t × Nat)) : List ServerStep :=
  match polls with
  | [] => []
  | (p, fresh) :: rest =>
      let st := run_server_once p fresh
      if st.continues then st :: run_server rest else [st]

/-! ## Theorems -/

/-- Claim C9: the handler module is initialized exactly once at its public
interface: `fs_handler_init` on an already-initialized module fails without
replacing the stored network class or function map, `fs_handler_finalize`
on an uninitialized module fails without touching state, and a successful
finalize clears both statics so that a subsequent init succeeds. -/
theorem handler_init_finalize_invariant (nc nc2 : Nat) (s t : HandlerState)
    (hs : s.handler_network_class.isSome = true)
    (ht : t.handler_network_class = none) :
    fs_handler_init nc s = (S_FAIL, s) ∧
    fs_handler_finalize t = (S_FAIL, t) ∧
    (fs_handler_finalize s).1 = S_SUCCESS ∧
    ((fs_handler_finalize s).2).handler_network_class = none ∧
    ((fs_handler_finalize s).2).handler_func_map = none ∧
    (fs_handler_init nc2 (fs_handler_finalize s).2).1 = S_SUCCESS := by
  obtain ⟨x, hx⟩ := Option.isSome_iff_exists.mp hs
  refine ⟨?_, ?_, ?_, ?_, ?_, ?_⟩ <;>
    simp [fs_handler_init, fs_handler_finalize, hx, ht]

/-- Witness for C9 at a concrete initialized state and a concrete
uninitialized state. -/
theorem handler_init_finalize_invariant_witness :
    (HandlerState.mk (some 1) (some [])).handler_network_class.isSome = true ∧
    (HandlerState.mk none none).handler_network_class = none ∧
    (fs_handler_init 7 ⟨some 1, some []⟩ = (S_FAIL, ⟨some 1, some []⟩) ∧
     fs_handler_finalize ⟨none, none⟩ = (S_FAIL, ⟨none, none⟩) ∧
     (fs_handler_finalize ⟨some 1, some []⟩).1 = S_SUCCESS ∧
     ((fs_handler_finalize ⟨some 1, some []⟩).2).handler_network_class = none ∧
     ((fs_handler_finalize ⟨some 1, some []⟩).2).handler_func_map = none ∧
     (fs_handler_init 8 (fs_handler_finalize ⟨some 1, some []⟩).2).1 = S_SUCCESS) :=
  ⟨rfl, rfl,
    handler_init_finalize_invariant 7 8 ⟨some 1, some []⟩ ⟨none, none⟩ rfl rfl⟩

/-- Claim C5 (counterexample): registering "foo" a second time under the
same hashed id is not rejected — `fs_handler_register` returns `void` and
the insert overwrites — so the entry previously stored under that id has
changed: lookup now yields the second triple, not the original
⟨1, 2, 3⟩. -/
theorem fs_handler_register_overwrite_cex :
    func_map_lookup
      (((fs_handler_register "foo" 4 5 6
          (fs_handler_register "foo" 1 2 3
            ⟨some 1, some []⟩)).handler_func_map).getD [])
      (fs_proc_string_hash "foo") = some ⟨4, 5, 6⟩ ∧
    (⟨4, 5, 6⟩ : fs_proc_info_t) ≠ ⟨1, 2, 3⟩ := by
  exact ⟨rfl, by decide⟩

/-- Claim C5 (amended): `fs_handler_register` on an initialized module
stores the new triple under `hash(name)`, silently overwriting any triple
previously stored under that id; it returns no status and cannot report
failure. -/
theorem fs_handler_register_overwrites (func_name : String)
    (a b c : Nat) (m : FuncMap) (s : HandlerState)
    (hm : s.handler_func_map = some m) :
    ∃ m2, (fs_handler_register func_name a b c s).handler_func_map = some m2 ∧
      func_map_lookup m2 (fs_proc_string_hash func_name) = some ⟨a, b, c⟩ := by
  refine ⟨func_map_insert m (fs_proc_string_hash func_name) ⟨a, b, c⟩, ?_, ?_⟩
  · simp [fs_handler_register, hm]
  · simp [func_map_lookup, func_map_insert, List.lookup]

/-- Witness for the amended C5 at a concrete initialized state. -/
theorem fs_handler_register_overwrites_witness :
    (HandlerState.mk (some 1) (some [])).handler_func_map = some [] ∧
    ∃ m2, (fs_handler_register "g" 7 8 9 ⟨some 1, some []⟩).handler_func_map = some m2 ∧
      func_map_lookup m2 (fs_proc_string_hash "g") = some ⟨7, 8, 9⟩ :=
  ⟨rfl, fs_handler_register_overwrites "g" 7 8 9 [] ⟨some 1, some []⟩ rfl⟩

/-- Claim C7: `fs_handler_get_input` is idempotent.  A first call on a
handle still owning its receive buffer and decode proc (with the id
registered) succeeds, invokes the decoder, and clears both owned
references; the second call on the resulting handle is a no-op returning
success, with the handle unchanged and no second decode or free. -/
theorem fs_handler_get_input_idempotent (fm : FuncMap) (h : fs_priv_handle_t)
    (hb : h.recv_buf.isSome = true) (hd : h.dec_proc.isSome = true)
    (hl : (func_map_lookup fm h.id).isSome = true) :
    (fs_handler_get_input fm h).ret = S_SUCCESS ∧
    (fs_handler_get_input fm h).decoded = true ∧
    (fs_handler_get_input fm h).handle.recv_buf = none ∧
    (fs_handler_get_input fm h).handle.dec_proc = none ∧
    fs_handler_get_input fm (fs_handler_get_input fm h).handle =
      ⟨S_SUCCESS, (fs_handler_get_input fm h).handle, false⟩ := by
  obtain ⟨info, hinfo⟩ := Option.isSome_iff_exists.mp hl
  simp [fs_handler_get_input, hb, hd, hinfo]

/-- Witness for C7 at a concrete handle and a one-entry registry. -/
theorem fs_handler_get_input_idempotent_witness :
    ((⟨0, some 9, 4, some 5, some 6, none⟩ : fs_priv_handle_t).recv_buf.isSome = true ∧
     (⟨0, some 9, 4, some 5, some 6, none⟩ : fs_priv_handle_t).dec_proc.isSome = true ∧
     (func_map_lookup [(0, ⟨1, 2, 3⟩)] 0).isSome = true) ∧
    ((fs_handler_get_input [(0, ⟨1, 2, 3⟩)] ⟨0, some 9, 4, some 5, some 6, none⟩).ret = S_SUCCESS ∧
     (fs_handler_get_input [(0, ⟨1, 2, 3⟩)] ⟨0, some 9, 4, some 5, some 6, none⟩).decoded = true ∧
     (fs_handler_get_input [(0, ⟨1, 2, 3⟩)] ⟨0, some 9, 4, some 5, some 6, none⟩).handle.recv_buf = none ∧
     (fs_handler_get_input [(0, ⟨1, 2, 3⟩)] ⟨0, some 9, 4, some 5, some 6, none⟩).handle.dec_proc = none ∧
     fs_handler_get_input [(0, ⟨1, 2, 3⟩)]
         (fs_handler_get_input [(0, ⟨1, 2, 3⟩)] ⟨0, some 9, 4, some 5, some 6, none⟩).handle =
       ⟨S_SUCCESS,
         (fs_handler_get_input [(0, ⟨1, 2, 3⟩)] ⟨0, some 9, 4, some 5, some 6, none⟩).handle,
         false⟩) :=
  ⟨⟨rfl, rfl, rfl⟩,
    fs_handler_get_input_idempotent [(0, ⟨1, 2, 3⟩)]
      ⟨0, some 9, 4, some 5, some 6, none⟩ rfl rfl rfl⟩

/-- Claim C10: `fs_handler_get_input` is atomic on its error path: when the
handle still owns its buffer and decode proc but the registry lookup by the
handle's id misses, it returns `S_FAIL` with the handle unchanged — the
receive buffer and decode proc references are neither freed nor cleared,
and the decoder is not invoked. -/
theorem fs_handler_get_input_lookup_fail_atomic (fm : FuncMap)
    (h : fs_priv_handle_t)
    (hb : h.recv_buf.isSome = true) (hd : h.dec_proc.isSome = true)
    (hl : func_map_lookup fm h.id = none) :
    fs_handler_get_input fm h = ⟨S_FAIL, h, false⟩ := by
  simp [fs_handler_get_input, hb, hd, hl]

/-- Witness for C10 at a concrete handle and the empty registry. -/
theorem fs_handler_get_input_lookup_fail_atomic_witness :
    ((⟨0, some 9, 4, some 5, some 6, none⟩ : fs_priv_handle_t).recv_buf.isSome = true ∧
     (⟨0, some 9, 4, some 5, some 6, none⟩ : fs_priv_handle_t).dec_proc.isSome = true ∧
     func_map_lookup [] 0 = none) ∧
    fs_handler_get_input [] ⟨0, some 9, 4, some 5, some 6, none⟩ =
      ⟨S_FAIL, ⟨0, some 9, 4, some 5, some 6, none⟩, false⟩ :=
  ⟨⟨rfl, rfl, rfl⟩,
    fs_handler_get_input_lookup_fail_atomic []
      ⟨0, some 9, 4, some 5, some 6, none⟩ rfl rfl rfl⟩

/-- Claim C1 (code evaluated at the failing input): receiving a call whose
decoded operation id (9) is not in the registry makes `fs_handler_receive`
return `S_FAIL` with the half-built handle still live and still holding
both its raw receive buffer and its decode context — nothing on this path
releases them, contradicting the claimed release of every resource. -/
theorem fs_handler_receive_unknown_op_leaks :
    fs_handler_receive [] 9 3 4 5 6 =
      { ret := S_FAIL,
        handle_live := some ⟨9, some 3, 4, some 6, some 5, none⟩,
        executed := false } ∧
    ((fs_handler_receive [] 9 3 4 5 6).handle_live.map
        (fun h => h.recv_buf.isSome && h.dec_proc.isSome)) = some true := by
  decide

/-- Claim C4 (code evaluated at the failing input): `fs_handler_complete`
frees the handle yet records no consumed flag anywhere, and it branches
only on the registry lookup and the allocation outcome; invoked a second
time on the same handle value (the C caller's dangling pointer, memory
unchanged), it performs a full silent second send instead of rejecting or
asserting. -/
theorem fs_handler_complete_double_send :
    (fs_handler_complete 100 8 true [(7, ⟨1, 2, 3⟩)]
        ⟨7, some 11, 12, none, none, none⟩).handle_freed = true ∧
    fs_handler_complete 100 8 true [(7, ⟨1, 2, 3⟩)]
        ⟨7, some 11, 12, none, none, none⟩ =
      { ret := S_SUCCESS, alloc_len := some 100, enc_capacity := some 92,
        sent_len := some 100, addr_freed := true, handle_freed := true } := by
  decide

/-- Claim C6 (code evaluated at the failing input): with the transport's
unexpected size 64 and an 8-byte status prefix, `fs_handler_complete`
allocates the fixed 64-byte buffer and hands the encoder a 56-byte
capacity, returning success — it never queries the encoder's required size
(that block is commented out in the source), so a response needing 1000
bytes (1000 > 56) is not rejected. -/
theorem fs_handler_complete_no_size_check :
    fs_handler_complete 64 8 true [(7, ⟨1, 2, 3⟩)]
        ⟨7, some 11, 12, none, none, none⟩ =
      { ret := S_SUCCESS, alloc_len := some 64, enc_capacity := some 56,
        sent_len := some 64, addr_freed := true, handle_freed := true } ∧
    ¬ (1000 ≤ 56) := by
  decide

/-- Claim C3 (code evaluated at the failing input): a body shorter than the
header and a non-Req op byte are dropped with a warning and no reply, but a
17-byte Req whose `addrlen` field (100) exceeds the delivered payload is
only warned about ("dropping ... address truncated") and then an Ack is
still sent — the source lacks the early return on that branch. -/
theorem process_rx_msg_truncated_addr_replies :
    process_rx_msg 10 OP_REQ 0 = ⟨true, false, false, false⟩ ∧
    process_rx_msg 17 OP_ACK 0 = ⟨false, true, false, false⟩ ∧
    process_rx_msg 17 OP_REQ 100 = ⟨false, false, true, true⟩ := by
  decide

/-- Claim C2 (counterexample): a truncated slot with a 110-byte buffer is
regrown to 203 bytes — `twice_or_max 110 - wireup_hdrlen` — which is not at
least 2 × 110 = 220, refuting "capacity at least 2 times the previous
buffer size". -/
theorem run_server_once_regrow_cex :
    (run_server_once (some ⟨.UCS_ERR_MESSAGE_TRUNCATED, 0, 5, 1, 110⟩) 2).new_buf =
      some (2, 203) ∧ ¬ (2 * 110 ≤ 203) := by
  decide

/-- Claim C2 (amended): on a Truncated completion the regrow step chooses
the new capacity `twice_or_max(previous) - hdrlen` — the saturating double
of the previous buffer size minus one fixed wireup header length, so that
the payload capacity (bytes beyond the header) exactly doubles whenever the
double does not saturate — never wrapping and never exceeding `SIZE_MAX`; a
new buffer of that capacity is allocated, the old buffer freed, and the
slot re-armed with the new buffer on the pool's same match tag. -/
theorem run_server_once_truncated_regrow (d : rxdesc_t) (fresh : Nat)
    (hst : d.status = .UCS_ERR_MESSAGE_TRUNCATED)
    (hlen : wireup_hdrlen ≤ d.buflen) (hmax : d.buflen ≤ SIZE_MAX) :
    run_server_once (some d) fresh =
      ⟨true, none, none, some d.buf,
        some (fresh, twice_or_max d.buflen - wireup_hdrlen),
        some (fresh, twice_or_max d.buflen - wireup_hdrlen)⟩ ∧
    twice_or_max d.buflen - wireup_hdrlen ≤ SIZE_MAX ∧
    (2 * d.buflen ≤ SIZE_MAX →
      (twice_or_max d.buflen - wireup_hdrlen) - wireup_hdrlen
        = 2 * (d.buflen - wireup_hdrlen)) := by
  obtain ⟨st, rxlen, stag, buf, blen⟩ := d
  simp only at hst hlen hmax
  subst hst
  have hpow : (2 : Nat) ^ 64 = 18446744073709551616 := by norm_num
  have hS : SIZE_MAX = 18446744073709551615 := by
    simp [SIZE_MAX, hpow]
  have key : (twice_or_max blen + (2 ^ 64 - wireup_hdrlen)) % 2 ^ 64
      = twice_or_max blen - wireup_hdrlen := by
    simp only [twice_or_max, wireup_hdrlen, hpow, hS] at *
    omega
  refine ⟨?_, ?_, ?_⟩
  · simp only [run_server_once, key]
  · simp only [twice_or_max, wireup_hdrlen, hS] at *
    omega
  · intro hnotsat
    simp only [twice_or_max, wireup_hdrlen, hS] at *
    omega

/-- Witness for the amended C2 at a concrete truncated slot of capacity
200 bytes. -/
theorem run_server_once_truncated_regrow_witness :
    ((⟨.UCS_ERR_MESSAGE_TRUNCATED, 0, 5, 1, 200⟩ : rxdesc_t).status =
        .UCS_ERR_MESSAGE_TRUNCATED ∧
     wireup_hdrlen ≤ (200 : Nat) ∧ (200 : Nat) ≤ SIZE_MAX) ∧
    (run_server_once (some ⟨.UCS_ERR_MESSAGE_TRUNCATED, 0, 5, 1, 200⟩) 3 =
      ⟨true, none, none, some 1,
        some (3, twice_or_max 200 - wireup_hdrlen),
        some (3, twice_or_max 200 - wireup_hdrlen)⟩ ∧
     twice_or_max 200 - wireup_hdrlen ≤ SIZE_MAX ∧
     (2 * 200 ≤ SIZE_MAX →
       (twice_or_max 200 - wireup_hdrlen) - wireup_hdrlen
         = 2 * (200 - wireup_hdrlen))) :=
  ⟨⟨rfl, by decide, by decide⟩,
    run_server_once_truncated_regrow ⟨.UCS_ERR_MESSAGE_TRUNCATED, 0, 5, 1, 200⟩ 3
      rfl (by decide) (by decide)⟩

/-- Claim C8: in the pool-consumer loop, a slot whose status is neither Ok
nor Truncated has its fatal status reported and is not re-armed, and
`run_server_once` returns false so the serving loop ends there (the step
list stops at that step); a slot with an Ok or Truncated status is re-armed
and the loop continues with the remaining polls. -/
theorem run_server_fatal_status_stops_loop (d e : rxdesc_t) (fresh f c : Nat)
    (polls : List (Option rxdesc_t × Nat))
    (hd : d.status = .err c)
    (he : e.status = .UCS_OK ∨ e.status = .UCS_ERR_MESSAGE_TRUNCATED) :
    run_server ((some d, fresh) :: polls) = [run_server_once (some d) fresh] ∧
    (run_server_once (some d) fresh).error_reported = some (.err c) ∧
    (run_server_once (some d) fresh).continues = false ∧
    (run_server_once (some d) fresh).rearmed = none ∧
    (run_server_once (some e) f).continues = true ∧
    (run_server_once (some e) f).rearmed.isSome = true ∧
    run_server ((some e, f) :: polls) =
      run_server_once (some e) f :: run_server polls := by
  obtain ⟨sd, rd, td, bd, ld⟩ := d
  obtain ⟨se, re, te, be, le⟩ := e
  simp only at hd he
  subst hd
  rcases he with he | he <;> subst he <;>
    simp [run_server, run_server_once]

/-- Witness for C8 at a concrete fatal slot, a concrete Ok slot and a
one-element remaining poll list. -/
theorem run_server_fatal_status_stops_loop_witness :
    ((⟨.err 3, 0, 0, 1, 10⟩ : rxdesc_t).status = .err 3 ∧
     ((⟨.UCS_OK, 4, 5, 6, 10⟩ : rxdesc_t).status = .UCS_OK ∨
      (⟨.UCS_OK, 4, 5, 6, 10⟩ : rxdesc_t).status = .UCS_ERR_MESSAGE_TRUNCATED)) ∧
    (run_server [(some ⟨.err 3, 0, 0, 1, 10⟩, 0), (none, 0)] =
       [run_server_once (some ⟨.err 3, 0, 0, 1, 10⟩) 0] ∧
     (run_server_once (some ⟨.err 3, 0, 0, 1, 10⟩) 0).error_reported = some (.err 3) ∧
     (run_server_once (some ⟨.err 3, 0, 0, 1, 10⟩) 0).continues = false ∧
     (run_server_once (some ⟨.err 3, 0, 0, 1, 10⟩) 0).rearmed = none ∧
     (run_server_once (some ⟨.UCS_OK, 4, 5, 6, 10⟩) 0).continues = true ∧
     (run_server_once (some ⟨.UCS_OK, 4, 5, 6, 10⟩) 0).rearmed.isSome = true ∧
     run_server [(some ⟨.UCS_OK, 4, 5, 6, 10⟩, 0), (none, 0)] =
       run_server_once (some ⟨.UCS_OK, 4, 5, 6, 10⟩) 0 :: run_server [(none, 0)]) :=
  ⟨⟨rfl, Or.inl rfl⟩,
    run_server_fatal_status_stops_loop ⟨.err 3, 0, 0, 1, 10⟩ ⟨.UCS_OK, 4, 5, 6, 10⟩
      0 0 3 [(none, 0)] rfl (Or.inl rfl)⟩

end Mercury
